import Mathlib

/-
Verification of the snapshot comparison and periodic-report scheduling engine
of hoyo-slack-docker-2.0 (app.py), as a shallow embedding in Lean 4.

Modelling conventions:
  * UTC timestamps (stored by the program as "%Y-%m-%d %H:%M:%S" strings and
    compared lexicographically, which agrees with chronological order) are
    modelled as whole epoch seconds of type Int.
  * SQLite tables are modelled as lists of row structures in insertion (id)
    order; SELECT ... ORDER BY id DESC LIMIT 1 is the last matching element.
  * Python dicts of characters are modelled as association lists with the
    overwrite-on-duplicate-key insertion of dicts.
  * Slack delivery is modelled by a Bool flag threaded through unchanged,
    since the source catches every delivery failure and only logs it.
-/

namespace Hoyo

/-- Stat bundle of one character as loaded by _load_character_batch (app.py:294):
level, friendship, constellation, weapon name, weapon level, weapon refinement,
with missing numeric fields already defaulted to 0 and missing weapon name to "". -/
structure CharacterRecord where
  level : Nat
  friendship : Nat
  constellation : Nat
  weapon_name : String
  weapon_level : Nat
  weapon_refinement : Nat
deriving Repr, DecidableEq

/-- A character-name → CharacterRecord mapping (a Python dict), as an
association list with unique keys. -/
abbrev Batch := List (String × CharacterRecord)

/-- Renders a possibly empty weapon name the way the expression
`weapon_name or "No weapon"` in the source does. -/
def weaponDisplay (w : String) : String :=
  if w = "" then "No weapon" else w

/-- New-character bullet, app.py:673-676 and 918-921. -/
def newCharEntry (name : String) (n : CharacterRecord) : String :=
  "• " ++ name ++ ": Lv" ++ toString n.level ++ " C" ++ toString n.constellation ++
    " F" ++ toString n.friendship ++ " — " ++ weaponDisplay n.weapon_name ++
    " (Lv" ++ toString n.weapon_level ++ " R" ++ toString n.weapon_refinement ++ ")"

/-- Level-up bullet, app.py:683 and 925. -/
def levelUpEntry (name : String) (o n : CharacterRecord) : String :=
  "• " ++ name ++ ": Lv" ++ toString o.level ++ " → Lv" ++ toString n.level

/-- Friendship-gain bullet, app.py:686-688 and 928-930. -/
def friendshipEntry (name : String) (o n : CharacterRecord) : String :=
  "• " ++ name ++ ": F" ++ toString o.friendship ++ " → F" ++ toString n.friendship

/-- Constellation-change bullet, app.py:690-693 and 932-935. -/
def constellationEntry (name : String) (o n : CharacterRecord) : String :=
  "• " ++ name ++ ": C" ++ toString o.constellation ++ " → C" ++ toString n.constellation

/-- Weapon-change bullet, app.py:698-702 and 940-944. -/
def weaponChangeEntry (name oldW newW : String) (n : CharacterRecord) : String :=
  "• " ++ name ++ ": " ++ weaponDisplay oldW ++ " → " ++ weaponDisplay newW ++
    " (Lv" ++ toString n.weapon_level ++ " R" ++ toString n.weapon_refinement ++ ")"

/-- Weapon level-up bullet, app.py:704-708 and 946-950. -/
def weaponLevelEntry (name newW : String) (o n : CharacterRecord) : String :=
  "• " ++ name ++ " (" ++ weaponDisplay newW ++ "): Lv" ++ toString o.weapon_level ++
    " → Lv" ++ toString n.weapon_level

/-- Weapon refinement-change bullet, app.py:709-713 and 951-955. -/
def weaponRefinementEntry (name newW : String) (o n : CharacterRecord) : String :=
  "• " ++ name ++ " (" ++ weaponDisplay newW ++ "): R" ++ toString o.weapon_refinement ++
    " → R" ++ toString n.weapon_refinement

/-- The seven change categories accumulated by the diff loops
(app.py:657-663 and 899-905). -/
structure CatLists where
  new_chars : List String
  level_ups : List String
  friendship_ups : List String
  constellation_changes : List String
  weapon_changes : List String
  weapon_level_changes : List String
  weapon_refinement_changes : List String
deriving Repr, DecidableEq

/-- All seven category lists empty: the state of the accumulators before
the diff loop runs. -/
def emptyCats : CatLists :=
  { new_chars := [], level_ups := [], friendship_ups := [],
    constellation_changes := [], weapon_changes := [],
    weapon_level_changes := [], weapon_refinement_changes := [] }

/-- Pointwise concatenation of category lists; the per-name appends of the
diff loop amount to concatenating the contribution of each name in name order. -/
def catAppend (a b : CatLists) : CatLists :=
  { new_chars := a.new_chars ++ b.new_chars
    level_ups := a.level_ups ++ b.level_ups
    friendship_ups := a.friendship_ups ++ b.friendship_ups
    constellation_changes := a.constellation_changes ++ b.constellation_changes
    weapon_changes := a.weapon_changes ++ b.weapon_changes
    weapon_level_changes := a.weapon_level_changes ++ b.weapon_level_changes
    weapon_refinement_changes := a.weapon_refinement_changes ++ b.weapon_refinement_changes }

/-- Loop-body contribution for a character present in both mappings:
app.py:682-713 (identical code at app.py:924-955).  Note the weapon-name
comparison gates the weapon-level / refinement entries. -/
def bothPresentEntries (name : String) (o n : CharacterRecord) : CatLists :=
  let lvl := if n.level > o.level then [levelUpEntry name o n] else []
  let fr := if n.friendship > o.friendship then [friendshipEntry name o n] else []
  let con := if n.constellation ≠ o.constellation then [constellationEntry name o n] else []
  let oldW := o.weapon_name
  let newW := n.weapon_name
  if newW ≠ oldW then
    { new_chars := [], level_ups := lvl, friendship_ups := fr,
      constellation_changes := con,
      weapon_changes := [weaponChangeEntry name oldW newW n],
      weapon_level_changes := [], weapon_refinement_changes := [] }
  else
    { new_chars := [], level_ups := lvl, friendship_ups := fr,
      constellation_changes := con,
      weapon_changes := [],
      weapon_level_changes :=
        if n.weapon_level > o.weapon_level then [weaponLevelEntry name newW o n] else [],
      weapon_refinement_changes :=
        if n.weapon_refinement ≠ o.weapon_refinement then [weaponRefinementEntry name newW o n] else [] }

/-- Loop body of the latest-snapshot diff, app.py:667-713: a character only in
the current batch is reported as new; a character only in the previous batch is
skipped; a character in both is compared field by field. -/
def charDiffEntries (name : String) :
    Option CharacterRecord → Option CharacterRecord → CatLists
  | Option.none, some n => { emptyCats with new_chars := [newCharEntry name n] }
  | _, Option.none => emptyCats
  | some o, some n => bothPresentEntries name o n

/-- Loop body of the period-summary diff, app.py:909-955.  It differs from the
latest-snapshot loop in one way: a character absent at the window start is
reported as new only when its name never occurs in any snapshot strictly
before the window start (the existed_before set, app.py:886-897). -/
def periodCharDiffEntries (existed : List String) (name : String) :
    Option CharacterRecord → Option CharacterRecord → CatLists
  | _, Option.none => emptyCats
  | Option.none, some n =>
    if existed.contains name then emptyCats
    else { emptyCats with new_chars := [newCharEntry name n] }
  | some o, some n => bothPresentEntries name o n

/-- Code-point lexicographic order on character lists: the str ordering of
Python (and the String ordering of Lean), written out so it evaluates. -/
def charListLt : List Char → List Char → Bool
  | [], [] => false
  | [], _ :: _ => true
  | _ :: _, [] => false
  | a :: as, b :: bs =>
    if a.toNat < b.toNat then true
    else if b.toNat < a.toNat then false
    else charListLt as bs

/-- Code-point lexicographic order on strings. -/
def nameLt (x y : String) : Bool :=
  charListLt x.data y.data

/-- Insert a string into an ascending, duplicate-free list, keeping it
ascending and duplicate-free. -/
def insertNameSorted (x : String) : List String → List String
  | [] => [x]
  | y :: ys =>
    if nameLt x y then x :: y :: ys
    else if x == y then y :: ys
    else y :: insertNameSorted x ys

/-- Ascending duplicate-free ordering of a list of strings; models the Python
sorted(set(...)) over character names. -/
def sortedNames (l : List String) : List String :=
  l.foldr insertNameSorted []

/-- The name iteration order of both diff loops:
sorted(set(prev) | set(curr)), app.py:665 and 907. -/
def allNames (prev curr : Batch) : List String :=
  sortedNames (prev.map Prod.fst ++ curr.map Prod.fst)

/-- Runs a per-name loop body over the sorted union of character names,
concatenating the category contributions of each name in order. -/
def diffCatsWith (f : String → Option CharacterRecord → Option CharacterRecord → CatLists)
    (prev curr : Batch) : CatLists :=
  (allNames prev curr).foldr
    (fun nm acc => catAppend (f nm (List.lookup nm prev) (List.lookup nm curr)) acc)
    emptyCats

/-- The total-count line, app.py:715-721 and 957-963: present exactly when the
character counts differ, with a "+" prefix for a positive delta (the str() of
of a negative int already carries the minus sign). -/
def totalLineFor (prevTotal currTotal : Nat) : Option String :=
  if prevTotal ≠ currTotal then
    let delta : Int := (currTotal : Int) - (prevTotal : Int)
    let sign := if delta > 0 then "+" else ""
    some ("• Characters: " ++ toString prevTotal ++ " → " ++ toString currTotal ++
      " (" ++ sign ++ toString delta ++ ")")
  else Option.none

/-- A categorized diff result: the seven category lists plus the optional
total-count line. -/
structure ChangeSet where
  cats : CatLists
  total_line : Option String
deriving Repr, DecidableEq

/-- The suppression test of both callers (app.py:723-732 and 965-974):
a ChangeSet counts as empty when all seven lists and the total line are empty. -/
def ChangeSet.isEmpty (cs : ChangeSet) : Bool :=
  cs.cats.new_chars.isEmpty && cs.cats.level_ups.isEmpty &&
  cs.cats.friendship_ups.isEmpty && cs.cats.constellation_changes.isEmpty &&
  cs.cats.weapon_changes.isEmpty && cs.cats.weapon_level_changes.isEmpty &&
  cs.cats.weapon_refinement_changes.isEmpty && cs.total_line.isNone

/-- The diff computed by maybe_post_character_diff (app.py:657-721) between the
previous and the current character batches. -/
def diffLatest (prev curr : Batch) : ChangeSet :=
  { cats := diffCatsWith charDiffEntries prev curr
    total_line := totalLineFor prev.length curr.length }

/-- The diff computed by post_period_summary (app.py:899-963) between the
window-start and window-end character batches, given the names that already
existed before the window start. -/
def diffPeriod (prev curr : Batch) (existed : List String) : ChangeSet :=
  { cats := diffCatsWith (periodCharDiffEntries existed) prev curr
    total_line := totalLineFor prev.length curr.length }

/-- The per-account identity the report builders consult: display name and
optional Slack mention tag. -/
structure AccountInfo where
  name : String
  slack_mention : Option String
deriving Repr, DecidableEq

/-- Leading mention token of a report header (app.py:736 and 987). -/
def mentionPart : Option String → String
  | Option.none => ""
  | some m => m ++ " "

/-- One rendered section: header with parenthesized count, the entries, and a
trailing blank line; suppressed entirely when the category is empty
(app.py:741-774 and 992-1025). -/
def sectionBlock (title : String) (entries : List String) : List String :=
  if entries.isEmpty then []
  else ("*" ++ title ++ " (" ++ toString entries.length ++ ")*") :: (entries ++ [""])

/-- The seven sections in source order. -/
def categoryBlocks (c : CatLists) : List String :=
  sectionBlock "New Characters" c.new_chars ++
  sectionBlock "Level Ups" c.level_ups ++
  sectionBlock "Friendship Gains" c.friendship_ups ++
  sectionBlock "Constellation Changes" c.constellation_changes ++
  sectionBlock "Weapon Changes" c.weapon_changes ++
  sectionBlock "Weapon Level Ups" c.weapon_level_changes ++
  sectionBlock "Refinement Changes" c.weapon_refinement_changes

/-- The Totals block (app.py:776-778 and 1027-1029). -/
def totalsBlock : Option String → List String
  | Option.none => []
  | some t => ["*Totals*", t]

/-- Latest-snapshot report text, or Option.none when the ChangeSet is empty and
maybe_post_character_diff returns without sending anything (app.py:723-780). -/
def latestDiffMessage (acct : AccountInfo) (prevTime currTime : String)
    (cs : ChangeSet) : Option String :=
  if cs.isEmpty then Option.none
  else
    let header := mentionPart acct.slack_mention ++ "*Genshin Character Updates — " ++
      acct.name ++ "*"
    let subtitle := "_Snapshot: " ++ prevTime ++ " → " ++ currTime ++ "_"
    some ((String.intercalate "\n"
      (header :: subtitle :: "" :: (categoryBlocks cs.cats ++ totalsBlock cs.total_line))).trim)

/-- Period-summary report text (app.py:985-1031). -/
def periodMessage (acct : AccountInfo) (label : String) (startTime endTime : Int)
    (cs : ChangeSet) : String :=
  let header := mentionPart acct.slack_mention ++ "*Genshin Character Summary — " ++
    acct.name ++ "*"
  let subtitle := "_Period: " ++ label ++ " (" ++ toString startTime ++ " → " ++
    toString endTime ++ ")_"
  (String.intercalate "\n"
    (header :: subtitle :: "" :: (categoryBlocks cs.cats ++ totalsBlock cs.total_line))).trim

/-- Period-summary report text, or Option.none when the ChangeSet is empty and
post_period_summary records the run and returns without sending (app.py:965-983). -/
def periodMessageOpt (acct : AccountInfo) (label : String) (startTime endTime : Int)
    (cs : ChangeSet) : Option String :=
  if cs.isEmpty then Option.none
  else some (periodMessage acct label startTime endTime cs)

/-- One row of the character_summary_runs bookkeeping table (app.py:819-825),
with last_run_utc already parsed to epoch seconds. -/
structure RunRow where
  account_name : String
  period_label : String
  last_run : Int
deriving Repr, DecidableEq

/-- One row of the character_stats_snapshots table, restricted to the columns
the diff/trigger logic reads. -/
structure SnapRow where
  account_name : String
  takenAt : Int
  character_name : String
  record : CharacterRecord
deriving Repr, DecidableEq

/-- The persisted store: the bookkeeping rows and the snapshot rows, each in
insertion (autoincrement id) order. -/
structure DB where
  runs : List RunRow
  snaps : List SnapRow
deriving Repr, DecidableEq

/-- SELECT last_run_utc ... ORDER BY id DESC LIMIT 1 (app.py:831-840):
the most recently inserted bookkeeping row for (account, label). -/
def latestRun (db : DB) (acct label : String) : Option Int :=
  ((db.runs.filter (fun r => r.account_name == acct && r.period_label == label)).map
    (fun r => r.last_run)).getLast?

/-- INSERT INTO character_summary_runs (app.py:870-877, 975-982, 1053-1060):
appends a new bookkeeping row; reads pick the latest, so this is a logical
upsert of last_run. -/
def insertRun (db : DB) (acct label : String) (now : Int) : DB :=
  { db with runs := db.runs ++ [{ account_name := acct, period_label := label, last_run := now }] }

/-- SELECT DISTINCT taken_at_utc ... ORDER BY taken_at_utc ASC within a closed
window (app.py:857-867). -/
def insertTimeSorted (x : Int) : List Int → List Int
  | [] => [x]
  | y :: ys =>
    if x < y then x :: y :: ys
    else if x = y then y :: ys
    else y :: insertTimeSorted x ys

/-- Ascending duplicate-free ordering of a list of timestamps. -/
def sortedTimes (l : List Int) : List Int :=
  l.foldr insertTimeSorted []

/-- The ascending, deduplicated snapshot times of an account inside
[windowStart, windowEnd] (app.py:857-867). -/
def distinctTimesInWindow (db : DB) (acct : String) (windowStart windowEnd : Int) : List Int :=
  sortedTimes ((db.snaps.filter
    (fun r => r.account_name == acct && decide (windowStart ≤ r.takenAt) &&
      decide (r.takenAt ≤ windowEnd))).map (fun r => r.takenAt))

/-- Python-dict insertion: overwrite the value of an existing key in place,
otherwise append the new pair. -/
def dictInsert : Batch → String → CharacterRecord → Batch
  | [], k, v => [(k, v)]
  | (k0, v0) :: rest, k, v =>
    if k0 == k then (k0, v) :: rest else (k0, v0) :: dictInsert rest k v

/-- Model of _load_character_batch (app.py:294-335): all character rows of one account
at one exact timestamp, folded into a name-keyed dict. -/
def loadCharacterBatch (db : DB) (acct : String) (takenAt : Int) : Batch :=
  (db.snaps.filter (fun r => r.account_name == acct && r.takenAt == takenAt)).foldl
    (fun b r => dictInsert b r.character_name r.record) []

/-- Duplicate-free image of a list of names, first occurrences kept; models a
SELECT DISTINCT result read into a set (only membership is ever consulted). -/
def distinctNames (l : List String) : List String :=
  l.foldl (fun acc x => if acc.contains x then acc else acc ++ [x]) []

/-- SELECT DISTINCT character_name ... WHERE taken_at_utc < start (app.py:886-897):
the names that already occurred in any snapshot strictly before the window start. -/
def existedBefore (db : DB) (acct : String) (startTime : Int) : List String :=
  distinctNames ((db.snaps.filter
    (fun r => r.account_name == acct && decide (r.takenAt < startTime))).map
    (fun r => r.character_name))

/-- SELECT DISTINCT taken_at_utc < before ORDER BY taken_at_utc DESC LIMIT 1
(app.py:637-646): the latest snapshot time strictly before the given one. -/
def previousSnapshotTime (db : DB) (acct : String) (before : Int) : Option Int :=
  ((db.snaps.filter (fun r => r.account_name == acct && decide (r.takenAt < before))).map
    (fun r => r.takenAt)).max?

/-- maybe_post_character_diff (app.py:624-798) reduced to its observable text:
Option.none when there is no previous snapshot or the diff is empty, otherwise
the message text that is posted. -/
def maybePostCharacterDiff (db : DB) (acct : AccountInfo) (snapshotTime : Int) : Option String :=
  match previousSnapshotTime db acct.name snapshotTime with
  | Option.none => Option.none
  | some prevTime =>
    let prevBatch := loadCharacterBatch db acct.name prevTime
    let currBatch := loadCharacterBatch db acct.name snapshotTime
    latestDiffMessage acct (toString prevTime) (toString snapshotTime)
      (diffLatest prevBatch currBatch)

/-- Outcome of one period-trigger evaluation. notDue: suppressed by the
elapsed-days check, nothing touched.  dueNoReport: fewer than two snapshot
times in the window, bookkeeping advanced, no diff.  dueEmptyDiff: diff ran but
was empty, bookkeeping advanced, nothing sent.  posted: a message with the
given text was attempted (delivered records the transport outcome, which the
source only logs) and bookkeeping advanced. -/
inductive PeriodResult where
  | notDue
  | dueNoReport
  | dueEmptyDiff
  | posted (text : String) (delivered : Bool)
deriving Repr, DecidableEq

/-- The due path of post_period_summary (app.py:853-1060): select the window,
bail out (but record the run) on fewer than two distinct snapshot times,
otherwise diff the window endpoints; an empty diff records the run silently,
a non-empty diff is rendered and posted — failures are swallowed — and the run
is recorded regardless. -/
def periodDueEval (db : DB) (acct : AccountInfo) (label : String) (daysBack : Int)
    (now : Int) (delivered : Bool) : DB × PeriodResult :=
  let windowStart := now - daysBack * 86400
  let times := distinctTimesInWindow db acct.name windowStart now
  match times with
  | [] => (insertRun db acct.name label now, PeriodResult.dueNoReport)
  | [_] => (insertRun db acct.name label now, PeriodResult.dueNoReport)
  | t0 :: t1 :: rest =>
    let startTime := t0
    let endTime := (t1 :: rest).getLast (List.cons_ne_nil t1 rest)
    let prevBatch := loadCharacterBatch db acct.name startTime
    let currBatch := loadCharacterBatch db acct.name endTime
    let existed := existedBefore db acct.name startTime
    let cs := diffPeriod prevBatch currBatch existed
    match periodMessageOpt acct label startTime endTime cs with
    | Option.none => (insertRun db acct.name label now, PeriodResult.dueEmptyDiff)
    | some text => (insertRun db acct.name label now, PeriodResult.posted text delivered)

/-- post_period_summary (app.py:805-1060).  The leading suppression check
(app.py:842-851): if a bookkeeping row exists and fewer than (days_back − 1)
days elapsed since its last_run, return immediately with no further work.
The source compares elapsed_seconds / 86400.0 < days_back − 1, which over the
exact arithmetic of whole seconds is elapsed_seconds < (days_back − 1) · 86400. -/
def postPeriodSummary (db : DB) (acct : AccountInfo) (label : String) (daysBack : Int)
    (now : Int) (delivered : Bool) : DB × PeriodResult :=
  match latestRun db acct.name label with
  | some lastRun =>
    if now - lastRun < (daysBack - 1) * 86400 then (db, PeriodResult.notDue)
    else periodDueEval db acct label daysBack now delivered
  | Option.none => periodDueEval db acct label daysBack now delivered

/-- Join a list of strings with no separator: the Python "".join(parts). -/
def strJoin (l : List String) : String :=
  l.foldl (fun a b => a ++ b) ""

/-- The seconds-driven tail of _format_timer (app.py:473-487), reached when the
current/maximum short circuit did not fire: None → "Unknown", non-positive →
"Full", otherwise an "in {H}h{M}m" string built from a parts list — the hour
part only when hours is truthy, the minutes part when minutes is truthy or no
part exists yet. -/
def formatTimerCore : Option Int → String
  | Option.none => "Unknown"
  | some s =>
    if s ≤ 0 then "Full"
    else
      let hours := s / 3600
      let minutes := s % 3600 / 60
      let parts : List String := []
      let parts := if hours ≠ 0 then parts ++ [toString hours ++ "h"] else parts
      let parts := if minutes ≠ 0 ∨ parts = [] then parts ++ [toString minutes ++ "m"] else parts
      "in " ++ strJoin parts

/-- Model of _format_timer (app.py:469-489), argument order (seconds, current, maximum):
when both current and maximum are known and current ≥ maximum the answer is
"Full" regardless of seconds; otherwise the seconds tail decides.  (The
blanket try/except of the source is dead for integer inputs: none of these
operations can raise.) -/
def formatTimer (seconds current maximum : Option Int) : String :=
  match maximum, current with
  | some mx, some cur => if cur ≥ mx then "Full" else formatTimerCore seconds
  | _, _ => formatTimerCore seconds

/-- Seconds tail of the formatting contract exactly as the claim words it:
"Unknown" for unknown seconds, "Full" for seconds ≤ 0, otherwise a compact
"in {H}h{M}m" string omitting the hour component when it is 0 and always
showing the minutes component (even "0m") when hours is 0.  Kept separate from
formatTimerCore so the two can be compared. -/
def claimTimerTail : Option Int → String
  | Option.none => "Unknown"
  | some s =>
    if s ≤ 0 then "Full"
    else
      let h := s / 3600
      let m := s % 3600 / 60
      if h = 0 then "in " ++ (toString m ++ "m")
      else if m = 0 then "in " ++ (toString h ++ "h")
      else "in " ++ ((toString h ++ "h") ++ (toString m ++ "m"))

/-- The formatting contract exactly as the claim words it: "Full" whenever both
current and maximum are known with current ≥ maximum, regardless of seconds;
otherwise the seconds tail of the claim. -/
def claimTimerFormat (seconds current maximum : Option Int) : String :=
  match current, maximum with
  | some cv, some mv => if cv ≥ mv then "Full" else claimTimerTail seconds
  | _, _ => claimTimerTail seconds

/-- A Python datetime as far as _parse_recovery_seconds observes it: the
instant it denotes as epoch seconds (meaningful when aware) and its UTC offset
in seconds, Option.none meaning a naive datetime (tzinfo is None). -/
structure PyDatetime where
  epochSeconds : Int
  utcOffset : Option Int
deriving Repr, DecidableEq

/-- Abstract model of a Python string as _parse_recovery_seconds observes it
after value.strip(): whether the stripped string is empty, the outcome of
int(s), and the outcome of datetime.fromisoformat on s with every "Z" replaced
by "+00:00" (app.py:374-388).  The two parses are carried as data because the
embedding does not re-implement the CPython parsers. -/
structure PyStr where
  strippedEmpty : Bool
  intParse : Option Int
  isoParse : Option PyDatetime
deriving Repr, DecidableEq

/-- The runtime shapes _parse_recovery_seconds dispatches on.  pyfloat carries
int(value), the truncation the source applies to a float.  pyother is any
value of a type that matches no branch (the function falls through to None). -/
inductive RecoveryValue where
  | pynone
  | pyint (n : Int)
  | pyfloat (truncated : Int)
  | pystr (s : PyStr)
  | pydatetime (d : PyDatetime)
  | pyother
deriving Repr, DecidableEq

/-- A Python call outcome: a returned value, or an uncaught exception. -/
inductive PyResult where
  | value (v : Option Int)
  | raised (msg : String)
deriving Repr, DecidableEq

/-- Model of _parse_recovery_seconds (app.py:357-396) at current time now (epoch
seconds).  The string branch is wrapped in try/except, so subtracting an aware
"now" from a naive parsed datetime is caught and yields None; the datetime
branch performs the same subtraction with no try around it, so for a naive
datetime the TypeError escapes the function. -/
def parseRecoverySeconds (v : RecoveryValue) (now : Int) : PyResult :=
  match v with
  | RecoveryValue.pynone => PyResult.value Option.none
  | RecoveryValue.pyint n => PyResult.value (some n)
  | RecoveryValue.pyfloat t => PyResult.value (some t)
  | RecoveryValue.pystr s =>
    if s.strippedEmpty then PyResult.value Option.none
    else
      match s.intParse with
      | some n => PyResult.value (some n)
      | Option.none =>
        match s.isoParse with
        | Option.none => PyResult.value Option.none
        | some d =>
          match d.utcOffset with
          | some _ => PyResult.value (some (d.epochSeconds - now))
          | Option.none => PyResult.value Option.none
  | RecoveryValue.pydatetime d =>
    match d.utcOffset with
    | some _ => PyResult.value (some (d.epochSeconds - now))
    | Option.none => PyResult.raised "TypeError"
  | RecoveryValue.pyother => PyResult.value Option.none

/-- Fixture account used by the concrete evaluations below. -/
def acctA : AccountInfo := { name := "A", slack_mention := Option.none }

/-- Fixture record: Ayaka at the start of the scenario in §8 of the spec. -/
def recAyaka1 : CharacterRecord :=
  { level := 80, friendship := 6, constellation := 0,
    weapon_name := "Mistsplitter", weapon_level := 90, weapon_refinement := 1 }

/-- Fixture record: Ayaka at the end of the scenario in §8 of the spec. -/
def recAyaka2 : CharacterRecord :=
  { level := 90, friendship := 6, constellation := 1,
    weapon_name := "Mistsplitter", weapon_level := 90, weapon_refinement := 2 }

/-- Fixture store with one bookkeeping row and no snapshots, for the
suppressed-evaluation witness. -/
def dbSuppressed : DB :=
  { runs := [{ account_name := "A", period_label := "Last 7 days", last_run := 0 }]
    snaps := [] }

/-- Fixture store with nothing in it, for the cold-start witness. -/
def dbCold : DB := { runs := [], snaps := [] }

/-- Fixture store with two snapshot times of one changing character, for the
posting witness. -/
def dbTwoSnaps : DB :=
  { runs := []
    snaps :=
      [ { account_name := "A", takenAt := 100, character_name := "Ayaka", record := recAyaka1 }
      , { account_name := "A", takenAt := 200, character_name := "Ayaka", record := recAyaka2 } ] }

theorem str_empty_append (s : String) : "" ++ s = s := by
  obtain ⟨d⟩ := s
  rfl

theorem str_append_empty (s : String) : s ++ "" = s := by
  obtain ⟨d⟩ := s
  show String.mk (d ++ []) = String.mk d
  rw [List.append_nil]

theorem str_append_assoc (a b c : String) : a ++ b ++ c = a ++ (b ++ c) := by
  obtain ⟨x⟩ := a
  obtain ⟨y⟩ := b
  obtain ⟨z⟩ := c
  show String.mk (x ++ y ++ z) = String.mk (x ++ (y ++ z))
  rw [List.append_assoc]

theorem catAppend_empty_left (c : CatLists) : catAppend emptyCats c = c := by
  obtain ⟨a, b, d, e, f, g, h⟩ := c
  simp [catAppend, emptyCats]

theorem bothPresentEntries_refl (name : String) (r : CharacterRecord) :
    bothPresentEntries name r r = emptyCats := by
  simp [bothPresentEntries, emptyCats]

theorem charDiffEntries_refl (name : String) (x : Option CharacterRecord) :
    charDiffEntries name x x = emptyCats := by
  cases x with
  | none => rfl
  | some r => exact bothPresentEntries_refl name r

theorem periodCharDiffEntries_refl (existed : List String) (name : String)
    (x : Option CharacterRecord) :
    periodCharDiffEntries existed name x x = emptyCats := by
  cases x with
  | none => rfl
  | some r => exact bothPresentEntries_refl name r

theorem foldr_catAppend_empty (g : String → CatLists) (hg : ∀ nm, g nm = emptyCats) :
    ∀ l : List String,
      l.foldr (fun nm acc => catAppend (g nm) acc) emptyCats = emptyCats := by
  intro l
  induction l with
  | nil => rfl
  | cons a t ih =>
    simp only [List.foldr]
    rw [hg a, catAppend_empty_left, ih]

/-- C1 counterexample: in the period summary, "Ayaka" is present only in the
target batch, yet because her name occurs in a snapshot before the window
start (the existed_before set) the diff classifies her in no category at all —
in particular not as a new character. -/
theorem claim1_counterexample :
    (diffPeriod [] [("Ayaka", recAyaka2)] ["Ayaka"]).cats = emptyCats := by
  decide

/-- C1 (amended): in the latest-snapshot diff a character present only in the
target batch is always a new-character entry rendered with its full current
stats; in the period-summary diff this holds exactly when the name is not in
the existed_before set, and otherwise the character appears in no category; in
both diffs a character present only in the reference batch appears in no
category. -/
theorem claim1_amended (name : String) (r : CharacterRecord) (existed : List String) :
    charDiffEntries name Option.none (some r)
      = { emptyCats with new_chars := [newCharEntry name r] } ∧
    (existed.contains name = false →
      periodCharDiffEntries existed name Option.none (some r)
        = { emptyCats with new_chars := [newCharEntry name r] }) ∧
    (existed.contains name = true →
      periodCharDiffEntries existed name Option.none (some r) = emptyCats) ∧
    charDiffEntries name (some r) Option.none = emptyCats ∧
    periodCharDiffEntries existed name (some r) Option.none = emptyCats := by
  refine ⟨rfl, ?_, ?_, rfl, rfl⟩
  · intro h
    have h' : name ∉ existed := by simpa using h
    simp [periodCharDiffEntries, h']
  · intro h
    have h' : name ∈ existed := by simpa using h
    simp [periodCharDiffEntries, h']

/-- C1 witness: with existed_before = ["Bennett"], the target-only character
"Ayaka" is reported as new with her full stats by the period loop body. -/
theorem claim1_witness :
    (["Bennett"].contains "Ayaka") = false ∧
    periodCharDiffEntries ["Bennett"] "Ayaka" Option.none (some recAyaka2)
      = { emptyCats with new_chars := [newCharEntry "Ayaka" recAyaka2] } := by
  refine ⟨by decide, ?_⟩
  exact (claim1_amended "Ayaka" recAyaka2 ["Bennett"]).2.1 (by decide)

/-- C2: when a bookkeeping row exists for (account, label) and strictly fewer
than (days_back − 1) days elapsed since its last_run, the evaluation returns
not-due, sends nothing, and leaves the store — bookkeeping included —
completely unchanged. -/
theorem claim2_not_due (db : DB) (acct : AccountInfo) (label : String)
    (daysBack now lastRun : Int) (delivered : Bool)
    (hrow : latestRun db acct.name label = some lastRun)
    (hlt : now - lastRun < (daysBack - 1) * 86400) :
    postPeriodSummary db acct label daysBack now delivered = (db, PeriodResult.notDue) := by
  unfold postPeriodSummary
  rw [hrow]
  simp [hlt]

/-- C2 witness: last_run 5 days ago with days_back = 7 (threshold 6 days) is
suppressed and the store is untouched. -/
theorem claim2_witness :
    postPeriodSummary dbSuppressed acctA "Last 7 days" 7 432000 true
      = (dbSuppressed, PeriodResult.notDue) :=
  claim2_not_due dbSuppressed acctA "Last 7 days" 7 432000 0 true (by decide) (by decide)

theorem postPeriodSummary_due (db : DB) (acct : AccountInfo) (label : String)
    (daysBack now : Int) (delivered : Bool)
    (hdue : latestRun db acct.name label = Option.none ∨
      ∃ lr, latestRun db acct.name label = some lr ∧ (daysBack - 1) * 86400 ≤ now - lr) :
    postPeriodSummary db acct label daysBack now delivered
      = periodDueEval db acct label daysBack now delivered := by
  unfold postPeriodSummary
  rcases hdue with h | ⟨lr, h1, h2⟩
  · rw [h]
  · rw [h1]
    simp [not_lt.mpr h2]

theorem periodDueEval_few (db : DB) (acct : AccountInfo) (label : String)
    (daysBack now : Int) (delivered : Bool)
    (hfew : (distinctTimesInWindow db acct.name (now - daysBack * 86400) now).length < 2) :
    periodDueEval db acct label daysBack now delivered
      = (insertRun db acct.name label now, PeriodResult.dueNoReport) := by
  cases htimes : distinctTimesInWindow db acct.name (now - daysBack * 86400) now with
  | nil =>
    simp [periodDueEval, htimes]
  | cons t0 ts =>
    cases ts with
    | nil =>
      simp [periodDueEval, htimes]
    | cons t1 ts' =>
      exfalso
      rw [htimes] at hfew
      simp only [List.length_cons] at hfew
      omega

/-- C3: a due period evaluation (no prior bookkeeping row, or at least
days_back − 1 days elapsed) whose window holds fewer than two distinct snapshot
times records last_run = now for (account, label) and produces neither a
ChangeSet nor a report. -/
theorem claim3_insufficient_data (db : DB) (acct : AccountInfo) (label : String)
    (daysBack now : Int) (delivered : Bool)
    (hdue : latestRun db acct.name label = Option.none ∨
      ∃ lr, latestRun db acct.name label = some lr ∧ (daysBack - 1) * 86400 ≤ now - lr)
    (hfew : (distinctTimesInWindow db acct.name (now - daysBack * 86400) now).length < 2) :
    postPeriodSummary db acct label daysBack now delivered
      = (insertRun db acct.name label now, PeriodResult.dueNoReport) := by
  rw [postPeriodSummary_due db acct label daysBack now delivered hdue]
  exact periodDueEval_few db acct label daysBack now delivered hfew

/-- C3 witness: a cold-start store with no snapshots: the evaluation is due,
last_run advances to now, and no report is produced. -/
theorem claim3_witness :
    postPeriodSummary dbCold acctA "Last 7 days" 7 500 true
      = (insertRun dbCold "A" "Last 7 days" 500, PeriodResult.dueNoReport) :=
  claim3_insufficient_data dbCold acctA "Last 7 days" 7 500 true (Or.inl (by decide))
    (by decide)

/-- C10: a due period evaluation with at least two distinct snapshot times in
the window and a non-empty ChangeSet appends the bookkeeping row
last_run = now whatever the delivery outcome was — the result is a posted
message for both a delivered and a failed transport, and the store update is
the same in both cases. -/
theorem claim10_advances_after_post (db : DB) (acct : AccountInfo) (label : String)
    (daysBack now : Int) (delivered : Bool) (t0 t1 : Int) (rest : List Int)
    (hdue : latestRun db acct.name label = Option.none ∨
      ∃ lr, latestRun db acct.name label = some lr ∧ (daysBack - 1) * 86400 ≤ now - lr)
    (htimes : distinctTimesInWindow db acct.name (now - daysBack * 86400) now
      = t0 :: t1 :: rest)
    (hcs : (diffPeriod (loadCharacterBatch db acct.name t0)
        (loadCharacterBatch db acct.name ((t1 :: rest).getLast (List.cons_ne_nil t1 rest)))
        (existedBefore db acct.name t0)).isEmpty = false) :
    (postPeriodSummary db acct label daysBack now delivered).1
      = insertRun db acct.name label now ∧
    ∃ txt, (postPeriodSummary db acct label daysBack now delivered).2
      = PeriodResult.posted txt delivered := by
  rw [postPeriodSummary_due db acct label daysBack now delivered hdue]
  simp only [periodDueEval, htimes]
  simp only [periodMessageOpt, hcs]
  simp

/-- C10 witness: two snapshots of a changing character in the window, no prior
bookkeeping row; the run row is appended and a message is posted with the
delivery flag observed as failed. -/
theorem claim10_witness :
    (postPeriodSummary dbTwoSnaps acctA "Last 7 days" 7 300 false).1
      = insertRun dbTwoSnaps "A" "Last 7 days" 300 ∧
    ∃ txt, (postPeriodSummary dbTwoSnaps acctA "Last 7 days" 7 300 false).2
      = PeriodResult.posted txt false :=
  claim10_advances_after_post dbTwoSnaps acctA "Last 7 days" 7 300 false 100 200 []
    (Or.inl (by decide)) (by decide) (by decide)

theorem bothPresentEntries_level_ups (name : String) (o n : CharacterRecord) :
    (bothPresentEntries name o n).level_ups
      = if n.level > o.level then [levelUpEntry name o n] else [] := by
  unfold bothPresentEntries
  by_cases hw : n.weapon_name ≠ o.weapon_name
  · simp [hw]
  · simp [hw]

theorem bothPresentEntries_friendship_ups (name : String) (o n : CharacterRecord) :
    (bothPresentEntries name o n).friendship_ups
      = if n.friendship > o.friendship then [friendshipEntry name o n] else [] := by
  unfold bothPresentEntries
  by_cases hw : n.weapon_name ≠ o.weapon_name
  · simp [hw]
  · simp [hw]

theorem bothPresentEntries_constellation (name : String) (o n : CharacterRecord) :
    (bothPresentEntries name o n).constellation_changes
      = if n.constellation ≠ o.constellation then [constellationEntry name o n] else [] := by
  unfold bothPresentEntries
  by_cases hw : n.weapon_name ≠ o.weapon_name
  · simp [hw]
  · simp [hw]

theorem bothPresentEntries_weapon_changes (name : String) (o n : CharacterRecord) :
    (bothPresentEntries name o n).weapon_changes
      = if n.weapon_name ≠ o.weapon_name
          then [weaponChangeEntry name o.weapon_name n.weapon_name n] else [] := by
  unfold bothPresentEntries
  by_cases hw : n.weapon_name ≠ o.weapon_name
  · simp [hw]
  · simp [hw]

theorem bothPresentEntries_weapon_level (name : String) (o n : CharacterRecord) :
    (bothPresentEntries name o n).weapon_level_changes
      = if n.weapon_name = o.weapon_name
          then (if n.weapon_level > o.weapon_level
            then [weaponLevelEntry name n.weapon_name o n] else [])
          else [] := by
  unfold bothPresentEntries
  by_cases hw : n.weapon_name = o.weapon_name
  · simp [hw]
  · simp [hw]

theorem bothPresentEntries_weapon_refinement (name : String) (o n : CharacterRecord) :
    (bothPresentEntries name o n).weapon_refinement_changes
      = if n.weapon_name = o.weapon_name
          then (if n.weapon_refinement ≠ o.weapon_refinement
            then [weaponRefinementEntry name n.weapon_name o n] else [])
          else [] := by
  unfold bothPresentEntries
  by_cases hw : n.weapon_name = o.weapon_name
  · simp [hw]
  · simp [hw]

/-- C4: for a character present in both batches, a changed weapon name emits
exactly one weapon-change entry and suppresses the weapon-level and
weapon-refinement entries for that character in the same diff; with the weapon
name unchanged, a weapon-level entry appears iff the level strictly increased
and a refinement entry iff the refinement differs in either direction — and
both the latest-snapshot loop body and the period-summary loop body are this
same comparison. -/
theorem claim4_weapon_gating (name : String) (o n : CharacterRecord) (existed : List String) :
    charDiffEntries name (some o) (some n) = bothPresentEntries name o n ∧
    periodCharDiffEntries existed name (some o) (some n) = bothPresentEntries name o n ∧
    (n.weapon_name ≠ o.weapon_name →
      (bothPresentEntries name o n).weapon_changes
          = [weaponChangeEntry name o.weapon_name n.weapon_name n] ∧
      (bothPresentEntries name o n).weapon_level_changes = [] ∧
      (bothPresentEntries name o n).weapon_refinement_changes = []) ∧
    (n.weapon_name = o.weapon_name →
      (bothPresentEntries name o n).weapon_changes = [] ∧
      ((bothPresentEntries name o n).weapon_level_changes ≠ []
        ↔ o.weapon_level < n.weapon_level) ∧
      ((bothPresentEntries name o n).weapon_refinement_changes ≠ []
        ↔ n.weapon_refinement ≠ o.weapon_refinement)) := by
  refine ⟨rfl, rfl, ?_, ?_⟩
  · intro h
    refine ⟨?_, ?_, ?_⟩
    · rw [bothPresentEntries_weapon_changes, if_pos h]
    · rw [bothPresentEntries_weapon_level, if_neg h]
    · rw [bothPresentEntries_weapon_refinement, if_neg h]
  · intro h
    refine ⟨?_, ?_, ?_⟩
    · rw [bothPresentEntries_weapon_changes, if_neg (by simp [h])]
    · rw [bothPresentEntries_weapon_level, if_pos h]
      by_cases hl : n.weapon_level > o.weapon_level
      · simp [hl]
      · simp [hl]
    · rw [bothPresentEntries_weapon_refinement, if_pos h]
      by_cases hr : n.weapon_refinement ≠ o.weapon_refinement
      · simp [hr]
      · simp [hr]

/-- C4 witness: changing the weapon name while the weapon level and refinement
also change numerically yields exactly the one weapon-change entry and no
weapon-level or refinement entry. -/
theorem claim4_witness :
    (bothPresentEntries "Ayaka"
        { recAyaka1 with weapon_name := "Amenoma", weapon_level := 70, weapon_refinement := 5 }
        recAyaka2).weapon_changes
      = [weaponChangeEntry "Ayaka" "Amenoma" "Mistsplitter" recAyaka2] ∧
    (bothPresentEntries "Ayaka"
        { recAyaka1 with weapon_name := "Amenoma", weapon_level := 70, weapon_refinement := 5 }
        recAyaka2).weapon_level_changes = [] ∧
    (bothPresentEntries "Ayaka"
        { recAyaka1 with weapon_name := "Amenoma", weapon_level := 70, weapon_refinement := 5 }
        recAyaka2).weapon_refinement_changes = [] :=
  (claim4_weapon_gating "Ayaka"
    { recAyaka1 with weapon_name := "Amenoma", weapon_level := 70, weapon_refinement := 5 }
    recAyaka2 []).2.2.1 (by decide)

/-- C5: for a character present in both batches, a level-up entry appears iff
the level strictly increased, a friendship entry iff friendship strictly
increased, and a constellation entry iff the constellation changed in either
direction — equal or decreased level/friendship emit nothing; both diff loop
bodies are this same comparison. -/
theorem claim5_numeric_rules (name : String) (o n : CharacterRecord) (existed : List String) :
    charDiffEntries name (some o) (some n) = bothPresentEntries name o n ∧
    periodCharDiffEntries existed name (some o) (some n) = bothPresentEntries name o n ∧
    ((bothPresentEntries name o n).level_ups ≠ [] ↔ o.level < n.level) ∧
    ((bothPresentEntries name o n).friendship_ups ≠ [] ↔ o.friendship < n.friendship) ∧
    ((bothPresentEntries name o n).constellation_changes ≠ []
      ↔ n.constellation ≠ o.constellation) := by
  refine ⟨rfl, rfl, ?_, ?_, ?_⟩
  · rw [bothPresentEntries_level_ups]
    by_cases hl : n.level > o.level
    · simp [hl]
    · simp [hl]
  · rw [bothPresentEntries_friendship_ups]
    by_cases hf : n.friendship > o.friendship
    · simp [hf]
    · simp [hf]
  · rw [bothPresentEntries_constellation]
    by_cases hc : n.constellation ≠ o.constellation
    · simp [hc]
    · simp [hc]

/-- C5 witness: the scenario of §8 of the spec — level 80 → 90 and constellation
0 → 1 produce entries, while the unchanged friendship produces none. -/
theorem claim5_witness :
    ((bothPresentEntries "Ayaka" recAyaka1 recAyaka2).level_ups ≠ []) ∧
    ¬ ((bothPresentEntries "Ayaka" recAyaka1 recAyaka2).friendship_ups ≠ []) ∧
    ((bothPresentEntries "Ayaka" recAyaka1 recAyaka2).constellation_changes ≠ []) := by
  refine ⟨?_, ?_, ?_⟩
  · exact ((claim5_numeric_rules "Ayaka" recAyaka1 recAyaka2 []).2.2.1).mpr (by decide)
  · intro hne
    exact absurd (((claim5_numeric_rules "Ayaka" recAyaka1 recAyaka2 []).2.2.2.1).mp hne)
      (by decide)
  · exact ((claim5_numeric_rules "Ayaka" recAyaka1 recAyaka2 []).2.2.2.2).mpr (by decide)

theorem formatTimerCore_eq_claimTail (s? : Option Int) :
    formatTimerCore s? = claimTimerTail s? := by
  cases s? with
  | none => rfl
  | some s =>
    by_cases hs : s ≤ 0
    · simp [formatTimerCore, claimTimerTail, hs]
    · by_cases hh : s / 3600 = 0
      · simp [formatTimerCore, claimTimerTail, hs, hh, strJoin, str_empty_append]
      · by_cases hm : s % 3600 / 60 = 0
        · simp [formatTimerCore, claimTimerTail, hs, hh, hm, strJoin, str_empty_append]
        · simp [formatTimerCore, claimTimerTail, hs, hh, hm, strJoin, str_empty_append]

/-- C6: the daily-note timer formatter agrees, on every input, with the
specification in the claim: "Full" when current and maximum are both known with
current ≥ maximum regardless of seconds; otherwise "Unknown" for unknown
seconds; otherwise "Full" for seconds ≤ 0; otherwise a compact "in {H}h{M}m"
string that omits the hour component when it is 0 and always shows the minutes
component (even "0m") when hours is 0. -/
theorem claim6_format_timer (seconds current maximum : Option Int) :
    formatTimer seconds current maximum = claimTimerFormat seconds current maximum := by
  cases maximum with
  | none =>
    cases current with
    | none => exact formatTimerCore_eq_claimTail seconds
    | some cv => exact formatTimerCore_eq_claimTail seconds
  | some mv =>
    cases current with
    | none => exact formatTimerCore_eq_claimTail seconds
    | some cv =>
      by_cases h : cv ≥ mv
      · simp [formatTimer, claimTimerFormat, h]
      · simp [formatTimer, claimTimerFormat, h, formatTimerCore_eq_claimTail]

/-- C7: behaviour of the recovery-time resolver over every input shape.  The
int, float, numeric-string (integer parse tried first), aware-ISO-string and
aware-datetime cases return the claimed values, empty or unparseable strings
resolve to the unknown sentinel (never zero), and a naive ISO string also
resolves to unknown because the aware/naive subtraction fails inside the
guarded string branch — but a naive datetime value makes the same subtraction
raise an uncaught TypeError, contradicting the claim that the resolver never
raises and defaults a missing zone to UTC. -/
theorem claim7_resolver :
    (∀ n now : Int,
      parseRecoverySeconds (RecoveryValue.pyint n) now = PyResult.value (some n)) ∧
    (∀ t now : Int,
      parseRecoverySeconds (RecoveryValue.pyfloat t) now = PyResult.value (some t)) ∧
    (∀ (n now : Int) (iso : Option PyDatetime),
      parseRecoverySeconds (RecoveryValue.pystr ⟨false, some n, iso⟩) now
        = PyResult.value (some n)) ∧
    (∀ e off now : Int,
      parseRecoverySeconds (RecoveryValue.pystr ⟨false, Option.none, some ⟨e, some off⟩⟩) now
        = PyResult.value (some (e - now))) ∧
    (∀ e now : Int,
      parseRecoverySeconds (RecoveryValue.pystr ⟨false, Option.none, some ⟨e, Option.none⟩⟩) now
        = PyResult.value Option.none) ∧
    (∀ now : Int,
      parseRecoverySeconds (RecoveryValue.pystr ⟨false, Option.none, Option.none⟩) now
        = PyResult.value Option.none) ∧
    (∀ (now : Int) (ip : Option Int) (iso : Option PyDatetime),
      parseRecoverySeconds (RecoveryValue.pystr ⟨true, ip, iso⟩) now
        = PyResult.value Option.none) ∧
    (∀ e off now : Int,
      parseRecoverySeconds (RecoveryValue.pydatetime ⟨e, some off⟩) now
        = PyResult.value (some (e - now))) ∧
    (∀ now : Int,
      parseRecoverySeconds RecoveryValue.pynone now = PyResult.value Option.none) ∧
    (∀ e now : Int,
      parseRecoverySeconds (RecoveryValue.pydatetime ⟨e, Option.none⟩) now
        = PyResult.raised "TypeError") := by
  refine ⟨fun n now => rfl, fun t now => rfl, fun n now iso => rfl, fun e off now => rfl,
    fun e now => rfl, fun now => rfl, fun now ip iso => rfl, fun e off now => rfl,
    fun now => rfl, fun e now => rfl⟩

theorem toString_intOfNat (k : Nat) : toString ((k : Int)) = toString k := rfl

theorem toString_int_neg (k : Nat) (hk : 0 < k) :
    toString (-((k : Nat) : Int)) = "-" ++ toString k := by
  cases k with
  | zero => exact absurd hk (by omega)
  | succ j => rfl

theorem str_paren_plus (x : String) : " (" ++ ("+" ++ x) = " (+" ++ x := by
  rw [← str_append_assoc]
  have h : (" (" ++ "+" : String) = " (+" := by decide
  rw [h]

theorem str_paren_minus (x : String) : " (" ++ ("-" ++ x) = " (-" ++ x := by
  rw [← str_append_assoc]
  have h : (" (" ++ "-" : String) = " (-" := by decide
  rw [h]

/-- C8: in both diffs the total line is the totalLineFor of the two batch
sizes; it is absent exactly when the counts agree; and when they differ it
shows old count, new count and a signed delta — "+" prefixed when the count
grew, "-" signed when it shrank. -/
theorem claim8_total_line (prev curr : Batch) (existed : List String) :
    (diffLatest prev curr).total_line = totalLineFor prev.length curr.length ∧
    (diffPeriod prev curr existed).total_line = totalLineFor prev.length curr.length ∧
    (∀ p c : Nat, totalLineFor p c = Option.none ↔ p = c) ∧
    (∀ p c : Nat, p < c →
      totalLineFor p c = some ("• Characters: " ++ toString p ++ " → " ++ toString c ++
        " (+" ++ toString (c - p) ++ ")")) ∧
    (∀ p c : Nat, c < p →
      totalLineFor p c = some ("• Characters: " ++ toString p ++ " → " ++ toString c ++
        " (-" ++ toString (p - c) ++ ")")) := by
  refine ⟨rfl, rfl, ?_, ?_, ?_⟩
  · intro p c
    by_cases h : p = c
    · simp [totalLineFor, h]
    · simp [totalLineFor, h]
  · intro p c hpc
    simp only [totalLineFor]
    rw [if_pos (Nat.ne_of_lt hpc)]
    have hpos : (0 : Int) < (c : Int) - (p : Int) := by omega
    rw [if_pos hpos]
    have h1 : (c : Int) - (p : Int) = ((c - p : Nat) : Int) := by omega
    rw [h1, toString_intOfNat]
    simp only [str_append_assoc, str_paren_plus]
  · intro p c hcp
    simp only [totalLineFor]
    rw [if_pos (Nat.ne_of_gt hcp)]
    have hneg : ¬ ((0 : Int) < (c : Int) - (p : Int)) := by omega
    rw [if_neg hneg]
    have h1 : (c : Int) - (p : Int) = -(((p - c : Nat) : Int)) := by omega
    rw [h1, toString_int_neg (p - c) (by omega)]
    simp only [str_append_assoc, str_empty_append, str_paren_minus]

/-- C8 witness: growing from 3 to 5 characters renders the "+" signed total
line. -/
theorem claim8_witness :
    totalLineFor 3 5 = some ("• Characters: " ++ toString 3 ++ " → " ++ toString 5 ++
      " (+" ++ toString (5 - 3) ++ ")") :=
  (claim8_total_line [] [] []).2.2.2.1 3 5 (by decide)

/-- C9: a ChangeSet is empty exactly when all seven category lists and the
total line are empty; diffing a batch against itself — identical names and
equal fields — is empty under both diff engines; and an empty ChangeSet makes
both report builders produce no text, so nothing is sent. -/
theorem claim9_empty_suppression :
    (∀ cs : ChangeSet, cs.isEmpty = true ↔
      (cs.cats.new_chars = [] ∧ cs.cats.level_ups = [] ∧ cs.cats.friendship_ups = [] ∧
       cs.cats.constellation_changes = [] ∧ cs.cats.weapon_changes = [] ∧
       cs.cats.weapon_level_changes = [] ∧ cs.cats.weapon_refinement_changes = [] ∧
       cs.total_line = Option.none)) ∧
    (∀ b : Batch, (diffLatest b b).isEmpty = true) ∧
    (∀ (b : Batch) (existed : List String), (diffPeriod b b existed).isEmpty = true) ∧
    (∀ (acct : AccountInfo) (pt ct : String) (cs : ChangeSet),
      cs.isEmpty = true → latestDiffMessage acct pt ct cs = Option.none) ∧
    (∀ (acct : AccountInfo) (label : String) (st et : Int) (cs : ChangeSet),
      cs.isEmpty = true → periodMessageOpt acct label st et cs = Option.none) := by
  refine ⟨?_, ?_, ?_, ?_, ?_⟩
  · intro cs
    simp [ChangeSet.isEmpty, List.isEmpty_iff, Option.isNone_iff_eq_none, and_assoc]
  · intro b
    have hc : diffCatsWith charDiffEntries b b = emptyCats := by
      unfold diffCatsWith
      exact foldr_catAppend_empty _ (fun nm => charDiffEntries_refl nm (List.lookup nm b)) _
    simp [diffLatest, ChangeSet.isEmpty, hc, totalLineFor, emptyCats]
  · intro b existed
    have hc : diffCatsWith (periodCharDiffEntries existed) b b = emptyCats := by
      unfold diffCatsWith
      exact foldr_catAppend_empty _
        (fun nm => periodCharDiffEntries_refl existed nm (List.lookup nm b)) _
    simp [diffPeriod, ChangeSet.isEmpty, hc, totalLineFor, emptyCats]
  · intro acct pt ct cs h
    simp [latestDiffMessage, h]
  · intro acct label st et cs h
    simp [periodMessageOpt, h]

/-- C9 witness: a concrete identical pair of batches is diffed to an empty
ChangeSet and the latest-diff report builder yields no message for it. -/
theorem claim9_witness :
    (diffLatest [("Ayaka", recAyaka1)] [("Ayaka", recAyaka1)]).isEmpty = true ∧
    latestDiffMessage acctA "100" "200"
      (diffLatest [("Ayaka", recAyaka1)] [("Ayaka", recAyaka1)]) = Option.none := by
  refine ⟨claim9_empty_suppression.2.1 [("Ayaka", recAyaka1)], ?_⟩
  exact claim9_empty_suppression.2.2.2.1 acctA "100" "200" _
    (claim9_empty_suppression.2.1 [("Ayaka", recAyaka1)])

end Hoyo
